import Mathlib

/-!
Verification of the NLI crowd monitor: the weekly schedule evaluator, the
load classifier, the Telegram publish cycle (serverless `monitor_crowds` and
local `run_check`), and the archive-to-SQLite sync pipeline, shallowly
embedded from the Python sources (`monitor.py`, `functions/collector/main.py`,
`local/sync.py`, `local/database.py`).
-/

namespace NLIMonitor

/-- Weekly operating-hours table from `monitor.py` / `functions/collector/main.py`
(`OPERATING_HOURS`): weekday 0 = Monday .. 6 = Sunday, mapped to the
(open_hour, close_hour) pair; Saturday (5) is absent. -/
def OPERATING_HOURS (weekday : Nat) : Option (Nat × Nat) :=
  match weekday with
  | 0 => some (9, 20)
  | 1 => some (9, 20)
  | 2 => some (9, 20)
  | 3 => some (9, 20)
  | 4 => some (9, 13)
  | 6 => some (9, 20)
  | _ => none

/-- `is_library_open` from both sources: look the current weekday up in
`OPERATING_HOURS`; absent means closed, otherwise open iff
`open_hour <= current_hour < close_hour`.  The current weekday and hour are
read from the clock in the source; here they are the two arguments. -/
def is_library_open (weekday : Nat) (current_hour : Nat) : Bool :=
  match OPERATING_HOURS weekday with
  | some (open_hour, close_hour) =>
      decide (open_hour ≤ current_hour ∧ current_hour < close_hour)
  | none => false

/-- `classify_load` from both sources: `None` gives the unknown label with the
white circle, `< 30` low/green, `30 <= x < 60` medium/yellow, otherwise
high/red. -/
def classify_load (popularity : Option Int) : String × String :=
  match popularity with
  | none => ("לא ידוע", "⚪️")
  | some p =>
      if p < 30 then ("נמוך", "🟢")
      else if 30 ≤ p ∧ p < 60 then ("בינוני", "🟡")
      else ("גבוה", "🔴")

/-- C4: for every weekday and hour, `is_library_open` returns false when the
weekday is absent from `OPERATING_HOURS`, and otherwise returns true exactly
when `open_hour <= current_hour < close_hour` (half-open upper bound); in
particular Monday (weekday 0, table entry (9, 20)) is open at hour 9 and
closed at hours 8 and 20. -/
theorem is_library_open_spec :
    (∀ weekday hour, OPERATING_HOURS weekday = none →
      is_library_open weekday hour = false) ∧
    (∀ weekday hour o c, OPERATING_HOURS weekday = some (o, c) →
      (is_library_open weekday hour = true ↔ o ≤ hour ∧ hour < c)) ∧
    is_library_open 0 9 = true ∧
    is_library_open 0 8 = false ∧
    is_library_open 0 20 = false := by
  refine ⟨?_, ?_, by decide, by decide, by decide⟩
  · intro weekday hour hw
    simp [is_library_open, hw]
  · intro weekday hour o c hw
    simp [is_library_open, hw]

/-- Concrete instantiation of `is_library_open_spec`: Saturday (5) is closed
at hour 10, and Monday hour 9 satisfies the open-interval characterisation. -/
theorem is_library_open_spec_witness :
    is_library_open 5 10 = false ∧ (is_library_open 0 9 = true ↔ 9 ≤ 9 ∧ 9 < 20) :=
  ⟨is_library_open_spec.1 5 10 rfl, is_library_open_spec.2.1 0 9 9 20 rfl⟩

/-- C3: `classify_load` returns exactly one of four pairs: absent popularity
gives the unknown label with the neutral indicator, any integer below 30 the
low label with green, any integer in [30, 60) the medium label with yellow,
and any integer at least 60 the high label with red. -/
theorem classify_load_spec :
    classify_load none = ("לא ידוע", "⚪️") ∧
    (∀ x : Int, x < 30 → classify_load (some x) = ("נמוך", "🟢")) ∧
    (∀ x : Int, 30 ≤ x → x < 60 → classify_load (some x) = ("בינוני", "🟡")) ∧
    (∀ x : Int, 60 ≤ x → classify_load (some x) = ("גבוה", "🔴")) := by
  refine ⟨rfl, ?_, ?_, ?_⟩
  · intro x hx
    simp only [classify_load]
    rw [if_pos hx]
  · intro x h1 h2
    simp only [classify_load]
    rw [if_neg (by omega), if_pos ⟨h1, h2⟩]
  · intro x hx
    simp only [classify_load]
    rw [if_neg (by omega), if_neg (by omega)]

/-- Concrete instantiation of `classify_load_spec` at the spec's boundary
examples 29, 30, 59 and 60. -/
theorem classify_load_spec_witness :
    classify_load (some 29) = ("נמוך", "🟢") ∧
    classify_load (some 30) = ("בינוני", "🟡") ∧
    classify_load (some 59) = ("בינוני", "🟡") ∧
    classify_load (some 60) = ("גבוה", "🔴") :=
  ⟨classify_load_spec.2.1 29 (by decide),
   classify_load_spec.2.2.1 30 (by decide) (by decide),
   classify_load_spec.2.2.1 59 (by decide) (by decide),
   classify_load_spec.2.2.2 60 (by decide)⟩

/-! ## Telegram publisher model

The HTTP layer is modelled by the observable outcome of one `requests.post`
call: either the request itself raises (`fail`, a `RequestException`), or a
response arrives carrying its status code and, for edits, whether the body
contains the provider's `message is not modified` text.
`raise_for_status` raises exactly for status codes in [400, 600). -/

/-- Outcome of the `requests.post` call inside `edit_telegram_message`. -/
inductive HttpResult where
  | fail : HttpResult
  | resp (status : Nat) (notModifiedText : Bool) : HttpResult
deriving DecidableEq

/-- Outcome of the `requests.post` call inside `send_telegram_message`:
request failure, or a response with its status, its `ok` field, and the
`message_id` the provider would return. -/
inductive SendResult where
  | fail : SendResult
  | resp (status : Nat) (ok : Bool) (message_id : String) : SendResult
deriving DecidableEq

/-- `edit_telegram_message` from both sources: a 400 response containing
`message is not modified` is treated as success; any other status in
[400, 600) makes `raise_for_status` raise, which is caught and yields
`False`; a request failure is caught and yields `False`; everything else is
success. -/
def edit_telegram_message (r : HttpResult) : Bool :=
  match r with
  | .fail => false
  | .resp status notMod =>
      if status == 400 && notMod then true
      else if 400 ≤ status ∧ status < 600 then false
      else true

/-- `send_telegram_message` from `functions/collector/main.py`: on request
failure or an error status the exception is caught and `None` is returned;
otherwise the new message id is returned exactly when the response's `ok`
field is set.  (`monitor.py`'s variant persists the id itself on the same
condition; the returned value here is the id that gets persisted.) -/
def send_telegram_message (r : SendResult) : Option String :=
  match r with
  | .fail => none
  | .resp status ok mid =>
      if 400 ≤ status ∧ status < 600 then none
      else if ok then some mid else none

/-- Observable side effects of one publish cycle, in program order. -/
inductive Event where
  | readState : Event
  | writeState (id : String) : Event
  | fetchCrowd : Event
  | saveReading (ok : Bool) : Event
  | editMsg (id : String) (text : String) : Event
  | sendMsg (text : String) : Event
deriving DecidableEq

/-- The create-new-message path shared by both publishers: send, and persist
the new id only when one came back (on failure the stored id, if any, is left
as it was). -/
def createNew (stored : Option String) (text : String) (sendR : SendResult) :
    Option String × List Event :=
  match send_telegram_message sendR with
  | some nid => (some nid, [Event.sendMsg text, Event.writeState nid])
  | none => (stored, [Event.sendMsg text])

/-- The edit-or-create publish step of `monitor_crowds`
(`functions/collector/main.py`, used identically in its open and closed
branches): a stored non-empty id (Python truthiness: `""` reads as absent)
is edited; on edit failure a new message is created and, on success of the
create, the stored id is overwritten.  Returns the persisted state after the
step and the messaging events it performed. -/
def publishStep (stored : Option String) (text : String) (editR : HttpResult)
    (sendR : SendResult) : Option String × List Event :=
  match stored with
  | some mid =>
      if mid == "" then createNew stored text sendR
      else if edit_telegram_message editR then
        (some mid, [Event.editMsg mid text])
      else
        match send_telegram_message sendR with
        | some nid =>
            (some nid, [Event.editMsg mid text, Event.sendMsg text,
              Event.writeState nid])
        | none => (some mid, [Event.editMsg mid text, Event.sendMsg text])
  | none => createNew none text sendR

/-- The closed-status text published when the library is closed. -/
def closedMessage : String := "הספרייה הלאומית סגורה כעת."

/-- The status text built by both sources for an open-hours cycle, from the
classifier output and the `%H:%M` timestamp string. -/
def buildMessage (popularity : Option Int) (tstamp : String) : String :=
  let lp := classify_load popularity
  match popularity with
  | some p =>
      lp.2 ++ " *עדכון עומס בספרייה הלאומית*\n\n" ++
      "רמת העומס כעת: *" ++ lp.1 ++ "* (" ++ toString p ++ "%)\n\n" ++
      "_עודכן לאחרונה: " ++ tstamp ++ "_"
  | none =>
      lp.2 ++ " *עדכון עומס בספרייה הלאומית*\n\n" ++
      "לא ניתן היה לקבל את רמת העומס כעת.\n\n" ++
      "_נסיון אחרון: " ++ tstamp ++ "_"

/-- Python `str()` of an `int | None`, as interpolated into the 200 response
body of `monitor_crowds`. -/
def popRepr (popularity : Option Int) : String :=
  match popularity with
  | none => "None"
  | some p => toString p

/-- One invocation's environment for `monitor_crowds` / `run_check`: whether
the four secrets resolve, whether the library is open now, the fetched
popularity (`none` covers fetch failure), the persisted last-message-id state
at cycle start, the formatted time, and the provider's responses to an edit
and to a send, plus whether the archive write would succeed. -/
structure Env where
  secretsOk : Bool
  libOpen : Bool
  crowd : Option Int
  stored : Option String
  tstamp : String
  editR : HttpResult
  sendR : SendResult
  archiveOk : Bool

/-- `monitor_crowds` from `functions/collector/main.py`: secret resolution
failure returns the 500 response before anything else happens (empty event
trace, state untouched); otherwise the closed branch publishes
`closedMessage` and returns 200, and the open branch fetches, archives the
reading, publishes the built status text, and returns 200 with the
popularity in the body.  Result: ((body, status), persisted state after the
cycle, event trace). -/
def monitor_crowds (env : Env) : (String × Nat) × Option String × List Event :=
  if !env.secretsOk then
    (("Error getting secrets", 500), env.stored, [])
  else if !env.libOpen then
    let p := publishStep env.stored closedMessage env.editR env.sendR
    (("Library closed", 200), p.1, Event.readState :: p.2)
  else
    let msg := buildMessage env.crowd env.tstamp
    let p := publishStep env.stored msg env.editR env.sendR
    (("Success: popularity=" ++ popRepr env.crowd, 200), p.1,
      Event.fetchCrowd :: Event.saveReading env.archiveOk ::
        Event.readState :: p.2)

/-- `run_check` from `monitor.py`: in the closed branch a stored (truthy) id
is edited to `closedMessage` with the edit's result discarded — no fallback —
while an absent id leads to a create; in the open branch the stored id is
edited and, on edit failure, a new message is created (the local
`send_telegram_message` persists the new id itself on success).  Returns the
persisted state after the cycle and the event trace. -/
def run_check (libOpen : Bool) (stored : Option String) (crowd : Option Int)
    (tstamp : String) (editR : HttpResult) (sendR : SendResult) :
    Option String × List Event :=
  if !libOpen then
    match stored with
    | some mid =>
        if mid == "" then
          let c := createNew stored closedMessage sendR
          (c.1, Event.readState :: c.2)
        else (some mid, [Event.readState, Event.editMsg mid closedMessage])
    | none =>
        let c := createNew none closedMessage sendR
        (c.1, Event.readState :: c.2)
  else
    let msg := buildMessage crowd tstamp
    let p := publishStep stored msg editR sendR
    (p.1, Event.fetchCrowd :: Event.readState :: p.2)

/-- The number of create attempts in a trace. -/
def countSends (trace : List Event) : Nat :=
  (trace.filter fun e => match e with | Event.sendMsg _ => true | _ => false).length

/-- The number of persisted-state overwrites in a trace. -/
def countWrites (trace : List Event) : Nat :=
  (trace.filter fun e => match e with | Event.writeState _ => true | _ => false).length

/-- C6: an edit that receives the provider's `message is not modified`
response (HTTP 400 with that text) reports success, and in both publishers
the cycle keeps the same stored id and creates no new message (the trace
holds the edit attempt only). -/
theorem edit_not_modified_spec :
    edit_telegram_message (HttpResult.resp 400 true) = true ∧
    (∀ mid text sendR, mid ≠ "" →
      publishStep (some mid) text (HttpResult.resp 400 true) sendR =
        (some mid, [Event.editMsg mid text])) ∧
    (∀ mid crowd ts sendR, mid ≠ "" →
      run_check true (some mid) crowd ts (HttpResult.resp 400 true) sendR =
        (some mid, [Event.fetchCrowd, Event.readState,
          Event.editMsg mid (buildMessage crowd ts)])) := by
  refine ⟨rfl, ?_, ?_⟩
  · intro mid text sendR hmid
    simp [publishStep, edit_telegram_message, hmid]
  · intro mid crowd ts sendR hmid
    simp [run_check, publishStep, edit_telegram_message, hmid]

/-- Concrete instantiation of `edit_not_modified_spec` at id "7". -/
theorem edit_not_modified_spec_witness :
    publishStep (some "7") "text" (HttpResult.resp 400 true) SendResult.fail =
      (some "7", [Event.editMsg "7" "text"]) :=
  edit_not_modified_spec.2.1 "7" "text" SendResult.fail (by decide)

/-- C7: whenever creating a new message fails (the send call yields no id),
both publishers leave the persisted last-message-id exactly as it was —
`none` stays `none`, and on the edit-failure fallback path the old id is
kept — with no state write and at most one send attempt per cycle (no
retry). -/
theorem create_failure_preserves_state (sendR : SendResult)
    (hsend : send_telegram_message sendR = none) :
    (∀ stored text editR,
      (publishStep stored text editR sendR).1 = stored ∧
      countWrites (publishStep stored text editR sendR).2 = 0 ∧
      countSends (publishStep stored text editR sendR).2 ≤ 1) ∧
    (∀ libOpen stored crowd ts editR,
      (run_check libOpen stored crowd ts editR sendR).1 = stored ∧
      countWrites (run_check libOpen stored crowd ts editR sendR).2 = 0 ∧
      countSends (run_check libOpen stored crowd ts editR sendR).2 ≤ 1) := by
  have hpub : ∀ stored text editR,
      (publishStep stored text editR sendR).1 = stored ∧
      countWrites (publishStep stored text editR sendR).2 = 0 ∧
      countSends (publishStep stored text editR sendR).2 ≤ 1 := by
    intro stored text editR
    match stored with
    | none => simp [publishStep, createNew, hsend, countWrites, countSends]
    | some mid =>
        by_cases hm : mid = ""
        · simp [publishStep, createNew, hsend, hm, countWrites, countSends]
        · by_cases he : edit_telegram_message editR
          · simp [publishStep, hm, he, countWrites, countSends]
          · simp [publishStep, hm, he, hsend, countWrites, countSends]
  refine ⟨hpub, ?_⟩
  intro libOpen stored crowd ts editR
  match libOpen with
  | true =>
      have h := hpub stored (buildMessage crowd ts) editR
      simp only [run_check, Bool.not_true, Bool.false_eq_true, if_false]
      refine ⟨h.1, ?_, ?_⟩
      · simpa [countWrites] using h.2.1
      · have := h.2.2
        simp only [countSends, List.filter] at *
        omega
  | false =>
      match stored with
      | none => simp [run_check, createNew, hsend, countWrites, countSends]
      | some mid =>
          by_cases hm : mid = ""
          · simp [run_check, createNew, hsend, hm, countWrites, countSends]
          · simp [run_check, hm, countWrites, countSends]

/-- Concrete instantiation of `create_failure_preserves_state`: a failed
send (network error) leaves a stored id "5" untouched on the fallback
path. -/
theorem create_failure_preserves_state_witness :
    (publishStep (some "5") "t" HttpResult.fail SendResult.fail).1 = some "5" ∧
    countWrites (publishStep (some "5") "t" HttpResult.fail SendResult.fail).2 = 0 ∧
    countSends (publishStep (some "5") "t" HttpResult.fail SendResult.fail).2 ≤ 1 :=
  (create_failure_preserves_state SendResult.fail rfl).1 (some "5") "t" HttpResult.fail

/-- C8: if secret resolution fails, `monitor_crowds` returns the plain-text
500 response with an empty event trace — so the cycle aborts before any
crowd fetch, any state read or write, and any publish attempt — and the
persisted state is untouched; with secrets resolved, every environment
(fetch failure, publish failure, archive failure included) yields a 200
response. -/
theorem monitor_crowds_error_taxonomy (env : Env) :
    (env.secretsOk = false →
      monitor_crowds env = (("Error getting secrets", 500), env.stored, [])) ∧
    (env.secretsOk = true → ((monitor_crowds env).1).2 = 200) := by
  constructor
  · intro h
    simp [monitor_crowds, h]
  · intro h
    cases hl : env.libOpen <;> simp [monitor_crowds, h, hl]

/-- Concrete instantiation of `monitor_crowds_error_taxonomy`: a cycle whose
secrets fail gets a 500 and an empty trace; one whose fetch, publish and
archive all fail still gets a 200. -/
theorem monitor_crowds_error_taxonomy_witness :
    monitor_crowds ⟨false, true, none, none, "12:00", HttpResult.fail,
        SendResult.fail, false⟩ =
      (("Error getting secrets", 500), none, []) ∧
    ((monitor_crowds ⟨true, true, none, none, "12:00", HttpResult.fail,
        SendResult.fail, false⟩).1).2 = 200 :=
  ⟨(monitor_crowds_error_taxonomy ⟨false, true, none, none, "12:00",
      HttpResult.fail, SendResult.fail, false⟩).1 rfl,
   (monitor_crowds_error_taxonomy ⟨true, true, none, none, "12:00",
      HttpResult.fail, SendResult.fail, false⟩).2 rfl⟩

/-- Counterexample to C1 as stated: in `run_check`'s closed branch
(`monitor.py`), with stored id "1", a failing edit (network error) and a
send that would succeed with id "2", the cycle ends with the stored id still
"1" and a trace containing no create and no state write — the publisher does
not fall back to creating a new message for the closed-status text. -/
theorem publish_fallback_counterexample :
    edit_telegram_message HttpResult.fail = false ∧
    send_telegram_message (SendResult.resp 200 true "2") = some "2" ∧
    run_check false (some "1") none "12:00" HttpResult.fail
        (SendResult.resp 200 true "2") =
      (some "1", [Event.readState, Event.editMsg "1" closedMessage]) ∧
    countSends (run_check false (some "1") none "12:00" HttpResult.fail
        (SendResult.resp 200 true "2")).2 = 0 ∧
    (run_check false (some "1") none "12:00" HttpResult.fail
        (SendResult.resp 200 true "2")).1 ≠ some "2" :=
  ⟨rfl, rfl, rfl, rfl, by decide⟩

/-- C1 amended: when a (truthy) last message id is stored and editing fails
for any reason other than the `message is not modified` response, the
serverless publisher (`monitor_crowds`) falls back to creating a new message
and overwrites the stored id on successful creation, for every status text
including the closed-status message; the local `run_check` does the same for
the open-status text, but its closed branch discards the edit result and
never falls back, leaving the stored id unchanged. -/
theorem publish_fallback_amended :
    (∀ mid text editR sendR nid, mid ≠ "" →
      edit_telegram_message editR = false →
      send_telegram_message sendR = some nid →
      publishStep (some mid) text editR sendR =
        (some nid, [Event.editMsg mid text, Event.sendMsg text,
          Event.writeState nid])) ∧
    (∀ env mid nid, env.secretsOk = true → env.stored = some mid → mid ≠ "" →
      edit_telegram_message env.editR = false →
      send_telegram_message env.sendR = some nid →
      ((monitor_crowds env).2).1 = some nid ∧
      Event.writeState nid ∈ ((monitor_crowds env).2).2 ∧
      (env.libOpen = false →
        Event.sendMsg closedMessage ∈ ((monitor_crowds env).2).2)) ∧
    (∀ mid crowd ts editR sendR nid, mid ≠ "" →
      edit_telegram_message editR = false →
      send_telegram_message sendR = some nid →
      run_check true (some mid) crowd ts editR sendR =
        (some nid, [Event.fetchCrowd, Event.readState,
          Event.editMsg mid (buildMessage crowd ts),
          Event.sendMsg (buildMessage crowd ts), Event.writeState nid])) ∧
    (∀ mid crowd ts editR sendR, mid ≠ "" →
      run_check false (some mid) crowd ts editR sendR =
        (some mid, [Event.readState, Event.editMsg mid closedMessage])) := by
  have hpub : ∀ mid text editR sendR nid, mid ≠ "" →
      edit_telegram_message editR = false →
      send_telegram_message sendR = some nid →
      publishStep (some mid) text editR sendR =
        (some nid, [Event.editMsg mid text, Event.sendMsg text,
          Event.writeState nid]) := by
    intro mid text editR sendR nid hmid hedit hsend
    simp [publishStep, hmid, hedit, hsend]
  refine ⟨hpub, ?_, ?_, ?_⟩
  · intro env mid nid hsec hst hmid hedit hsend
    cases hl : env.libOpen
    · have h := hpub mid closedMessage env.editR env.sendR nid hmid hedit hsend
      simp [monitor_crowds, hsec, hl, hst, h]
    · have h := hpub mid (buildMessage env.crowd env.tstamp) env.editR env.sendR
        nid hmid hedit hsend
      simp [monitor_crowds, hsec, hl, hst, h]
  · intro mid crowd ts editR sendR nid hmid hedit hsend
    have h := hpub mid (buildMessage crowd ts) editR sendR nid hmid hedit hsend
    simp [run_check, h]
  · intro mid crowd ts editR sendR hmid
    simp [run_check, hmid]

/-- Concrete instantiation of `publish_fallback_amended`: with stored id "1",
a failing edit and a send returning id "2", the serverless publish step ends
at id "2" with the create and the overwrite in the trace. -/
theorem publish_fallback_amended_witness :
    publishStep (some "1") "t" HttpResult.fail (SendResult.resp 200 true "2") =
      (some "2", [Event.editMsg "1" "t", Event.sendMsg "t", Event.writeState "2"]) :=
  publish_fallback_amended.1 "1" "t" HttpResult.fail
    (SendResult.resp 200 true "2") "2" (by decide) rfl rfl

/-! ## Local database and sync model

`local/database.py` over SQLite: a `locations` table (unique `place_id`,
autoincrement id), a `readings` table with `UNIQUE(location_id, timestamp)`
and `timestamp TEXT NOT NULL`, and a `sync_log` table with unique
`blob_path`.  Rows are lists in insertion order; the autoincrement id is a
counter carried in the state. -/

/-- One row of the `locations` table. -/
structure LocationRow where
  id : Nat
  name : String
  name_he : Option String
  place_id : String
  address : Option String
deriving DecidableEq

/-- One row of the `readings` table (`is_open` stored as the integer 1 or 0,
as `insert_reading` writes it). -/
structure ReadingRow where
  location_id : Nat
  popularity : Option Int
  timestamp : String
  day_of_week : Option Int
  hour : Option Int
  is_open : Int
  synced_from : Option String
deriving DecidableEq

/-- The SQLite database state: the three tables plus the next autoincrement
id for `locations`. -/
structure DB where
  locations : List LocationRow
  readings : List ReadingRow
  sync_log : List String
  next_loc_id : Nat
deriving DecidableEq

/-- The freshly initialised database (`init_db` creates empty tables). -/
def emptyDB : DB := ⟨[], [], [], 1⟩

/-- `is_blob_synced` from `local/database.py`: membership of the path in
`sync_log`. -/
def is_blob_synced (db : DB) (blob_path : String) : Bool :=
  db.sync_log.contains blob_path

/-- `mark_blob_synced` from `local/database.py`: insert the path into
`sync_log`; the unique constraint makes a second insert of the same path an
`IntegrityError`, which is swallowed, so the row is appended only when
absent. -/
def mark_blob_synced (db : DB) (blob_path : String) : DB :=
  if db.sync_log.contains blob_path then db
  else { db with sync_log := db.sync_log ++ [blob_path] }

/-- `insert_reading` from `local/database.py`: inserting a row whose
`(location_id, timestamp)` already exists, or whose timestamp is `NULL`
(column is `NOT NULL`), raises `IntegrityError`, caught and reported as
`false`; otherwise the row is appended and `true` returned. -/
def insert_reading (db : DB) (location_id : Nat) (popularity : Option Int)
    (timestamp : Option String) (day_of_week : Option Int) (hour : Option Int)
    (is_open : Bool) (synced_from : Option String) : DB × Bool :=
  match timestamp with
  | none => (db, false)
  | some ts =>
      if db.readings.any fun r => r.location_id == location_id && r.timestamp == ts then
        (db, false)
      else
        ({ db with readings := db.readings ++
            [⟨location_id, popularity, ts, day_of_week, hour,
              if is_open then 1 else 0, synced_from⟩] }, true)

/-- `get_or_create_location` from `local/database.py`: return the id of the
existing row with this `place_id`, or insert a new row (name defaulting to
"Unknown" when absent or empty, by Python `or`) with the next autoincrement
id. -/
def get_or_create_location (db : DB) (place_id : String) (name : Option String)
    (name_he : Option String) (address : Option String) : DB × Nat :=
  match db.locations.find? fun l => l.place_id == place_id with
  | some row => (db, row.id)
  | none =>
      let nm := match name with
        | none => "Unknown"
        | some s => if s == "" then "Unknown" else s
      ({ db with
          locations := db.locations ++
            [⟨db.next_loc_id, nm, name_he, place_id, address⟩],
          next_loc_id := db.next_loc_id + 1 }, db.next_loc_id)

/-- The parsed JSON payload of an archived reading object; every field comes
through `dict.get` and may be absent. -/
structure ReadingJson where
  place_id : Option String
  popularity : Option Int
  timestamp : Option String
  day_of_week : Option Int
  hour : Option Int
  is_open : Option Bool
deriving DecidableEq

/-- An object listed from the bucket: its path, and its parsed content —
`none` when the download or the JSON parse raises. -/
structure Blob where
  name : String
  content : Option ReadingJson
deriving DecidableEq

/-- The `LOCATIONS` metadata table from `local/sync.py`:
place_id to (name, name_he, address). -/
def LOCATIONS (place_id : String) : Option (String × String × String) :=
  if place_id == "ChIJy8LxJaZGHRURzNVZXycuQnw" then
    some ("National Library of Israel", "הספרייה הלאומית",
      "Edmond J. Safra Campus, Givat Ram, Jerusalem")
  else none

/-- Python `s.endswith(suffix)`: the string's last characters equal the
suffix (computed over the character lists so that concrete instances
evaluate). -/
def endswith (s suffix : String) : Bool :=
  s.data.reverse.take suffix.data.length == suffix.data.reverse

/-- The three counters reported by `sync_readings`. -/
structure Counts where
  new : Nat
  skip : Nat
  error : Nat
deriving DecidableEq

/-- The body of `sync_readings`' per-blob loop (`local/sync.py`): an
already-ledgered path is skipped; a failed download/parse or a missing or
empty (`if not place_id`, Python falsiness) place id counts as an error with
the database untouched; otherwise the location is resolved or created, the
reading inserted (`false` return — a duplicate key — counts as a skip, `true`
as new), and the path marked in the ledger either way. -/
def syncBlob (db : DB) (c : Counts) (b : Blob) : DB × Counts :=
  if is_blob_synced db b.name then
    (db, { c with skip := c.skip + 1 })
  else
    match b.content with
    | none => (db, { c with error := c.error + 1 })
    | some data =>
        match data.place_id with
        | none => (db, { c with error := c.error + 1 })
        | some pid =>
            if pid == "" then (db, { c with error := c.error + 1 })
            else
              let info := LOCATIONS pid
              let loc := get_or_create_location db pid
                (info.map fun i => i.1) (info.map fun i => i.2.1)
                (info.map fun i => i.2.2)
              let ins := insert_reading loc.1 loc.2 data.popularity
                data.timestamp data.day_of_week data.hour
                (data.is_open.getD true) (some b.name)
              let db2 := mark_blob_synced ins.1 b.name
              if ins.2 then (db2, { c with new := c.new + 1 })
              else (db2, { c with skip := c.skip + 1 })

/-- `sync_readings` from `local/sync.py`: filter the bucket listing down to
`.json` objects and run the per-blob loop over them with all counters at
zero.  Returns the final database and the reported counts. -/
def sync_readings (db : DB) (listing : List Blob) : DB × Counts :=
  (listing.filter fun b => endswith b.name ".json").foldl
    (fun acc b => syncBlob acc.1 acc.2 b) (db, ⟨0, 0, 0⟩)

/-- Whether a blob's per-record processing reaches the reading-insert step:
its content downloads and parses, and carries a non-empty `place_id`. -/
def blobOK (b : Blob) : Bool :=
  match b.content with
  | none => false
  | some d =>
      match d.place_id with
      | none => false
      | some pid => !(pid == "")

/-- The sum of the three sync counters. -/
def countsTotal (c : Counts) : Nat := c.new + c.skip + c.error

lemma is_blob_synced_iff (db : DB) (p : String) :
    is_blob_synced db p = true ↔ p ∈ db.sync_log := by
  simp [is_blob_synced]

lemma insert_reading_sync_log (db : DB) (lid : Nat) (pop : Option Int)
    (ts : Option String) (dow hr : Option Int) (io : Bool) (sf : Option String) :
    (insert_reading db lid pop ts dow hr io sf).1.sync_log = db.sync_log := by
  unfold insert_reading
  match ts with
  | none => rfl
  | some t => dsimp only; split <;> rfl

lemma get_or_create_location_sync_log (db : DB) (pid : String)
    (n nh a : Option String) :
    (get_or_create_location db pid n nh a).1.sync_log = db.sync_log := by
  unfold get_or_create_location
  split <;> rfl

lemma mark_blob_synced_mem (db : DB) (p x : String) :
    x ∈ (mark_blob_synced db p).sync_log ↔ x ∈ db.sync_log ∨ x = p := by
  unfold mark_blob_synced
  split
  · next h =>
      replace h := (is_blob_synced_iff db p).mp h
      constructor
      · exact Or.inl
      · rintro (hx | rfl) <;> [exact hx; exact h]
  · simp

lemma mark_blob_synced_nodup (db : DB) (p : String)
    (h : db.sync_log.Nodup) : (mark_blob_synced db p).sync_log.Nodup := by
  unfold mark_blob_synced
  split
  · exact h
  · next hc =>
      have hnm : p ∉ db.sync_log := fun hm => hc ((is_blob_synced_iff db p).mpr hm)
      simpa [List.nodup_append] using ⟨h, hnm⟩

lemma syncBlob_of_synced (db : DB) (c : Counts) (b : Blob)
    (h : is_blob_synced db b.name = true) :
    syncBlob db c b = (db, { c with skip := c.skip + 1 }) := by
  simp [syncBlob, h]

lemma syncBlob_of_bad (db : DB) (c : Counts) (b : Blob)
    (h1 : is_blob_synced db b.name = false) (h2 : blobOK b = false) :
    syncBlob db c b = (db, { c with error := c.error + 1 }) := by
  obtain ⟨name, content⟩ := b
  unfold syncBlob blobOK at *
  dsimp only at h1 h2 ⊢
  rw [h1]
  cases content with
  | none => rfl
  | some d =>
      obtain ⟨dpid, dpop, dts, ddow, dhr, dio⟩ := d
      cases dpid with
      | none => rfl
      | some pid =>
          dsimp only at h2 ⊢
          rw [Bool.not_eq_false'] at h2
          rw [if_pos h2]
          rfl

lemma syncBlob_sync_log_mem (db : DB) (c : Counts) (b : Blob) (x : String)
    (h : x ∈ db.sync_log) : x ∈ (syncBlob db c b).1.sync_log := by
  obtain ⟨name, content⟩ := b
  unfold syncBlob
  dsimp only
  split
  · exact h
  · cases content with
    | none => exact h
    | some d =>
        obtain ⟨dpid, dpop, dts, ddow, dhr, dio⟩ := d
        cases dpid with
        | none => exact h
        | some pid =>
            dsimp only
            split
            · exact h
            · split <;>
                · rw [mark_blob_synced_mem, insert_reading_sync_log,
                    get_or_create_location_sync_log]
                  exact Or.inl h

lemma syncBlob_ok_mem (db : DB) (c : Counts) (b : Blob)
    (h : blobOK b = true) : b.name ∈ (syncBlob db c b).1.sync_log := by
  obtain ⟨name, content⟩ := b
  by_cases hs : is_blob_synced db name
  · rw [syncBlob_of_synced db c ⟨name, content⟩ hs]
    exact (is_blob_synced_iff db name).mp hs
  · unfold syncBlob blobOK at *
    dsimp only at h ⊢
    rw [if_neg hs]
    cases content with
    | none => exact absurd h (by simp)
    | some d =>
        obtain ⟨dpid, dpop, dts, ddow, dhr, dio⟩ := d
        cases dpid with
        | none => exact absurd h (by simp)
        | some pid =>
            dsimp only
            rw [Bool.not_eq_true'] at h
            rw [if_neg (by simp [h])]
            split <;>
              · rw [mark_blob_synced_mem]
                exact Or.inr rfl

lemma syncBlob_sync_log_cases (db : DB) (c : Counts) (b : Blob) (x : String)
    (h : x ∈ (syncBlob db c b).1.sync_log) : x ∈ db.sync_log ∨ x = b.name := by
  obtain ⟨name, content⟩ := b
  unfold syncBlob at h
  dsimp only at h
  split at h
  · exact Or.inl h
  · cases content with
    | none => exact Or.inl h
    | some d =>
        obtain ⟨dpid, dpop, dts, ddow, dhr, dio⟩ := d
        cases dpid with
        | none => exact Or.inl h
        | some pid =>
            dsimp only at h
            split at h
            · exact Or.inl h
            · split at h <;>
                · rw [mark_blob_synced_mem, insert_reading_sync_log,
                    get_or_create_location_sync_log] at h
                  exact h

lemma syncBlob_sync_log_nodup (db : DB) (c : Counts) (b : Blob)
    (h : db.sync_log.Nodup) : (syncBlob db c b).1.sync_log.Nodup := by
  obtain ⟨name, content⟩ := b
  unfold syncBlob
  dsimp only
  split
  · exact h
  · cases content with
    | none => exact h
    | some d =>
        obtain ⟨dpid, dpop, dts, ddow, dhr, dio⟩ := d
        cases dpid with
        | none => exact h
        | some pid =>
            dsimp only
            split
            · exact h
            · have h' : ∀ dbx : DB, dbx.sync_log = db.sync_log →
                  (mark_blob_synced dbx name).sync_log.Nodup := by
                intro dbx hx
                apply mark_blob_synced_nodup
                rw [hx]; exact h
              split <;>
                exact h' _ (by rw [insert_reading_sync_log,
                  get_or_create_location_sync_log])

lemma syncBlob_total (db : DB) (c : Counts) (b : Blob) :
    countsTotal (syncBlob db c b).2 = countsTotal c + 1 := by
  obtain ⟨name, content⟩ := b
  unfold syncBlob
  dsimp only
  split
  · simp only [countsTotal]
    omega
  · cases content with
    | none => simp only [countsTotal]; omega
    | some d =>
        obtain ⟨dpid, dpop, dts, ddow, dhr, dio⟩ := d
        cases dpid with
        | none => simp only [countsTotal]; omega
        | some pid =>
            dsimp only
            split
            · simp only [countsTotal]; omega
            · split <;> (simp only [countsTotal]; omega)

lemma syncBlob_ok_error (db : DB) (c : Counts) (b : Blob)
    (h : blobOK b = true) : (syncBlob db c b).2.error = c.error := by
  obtain ⟨name, content⟩ := b
  by_cases hs : is_blob_synced db name
  · rw [syncBlob_of_synced db c ⟨name, content⟩ hs]
  · unfold syncBlob blobOK at *
    dsimp only at h ⊢
    rw [if_neg hs]
    cases content with
    | none => exact absurd h (by simp)
    | some d =>
        obtain ⟨dpid, dpop, dts, ddow, dhr, dio⟩ := d
        cases dpid with
        | none => exact absurd h (by simp)
        | some pid =>
            dsimp only
            rw [Bool.not_eq_true'] at h
            rw [if_neg (by simp [h])]
            split <;> rfl

lemma syncFold_total (L : List Blob) :
    ∀ acc : DB × Counts,
      countsTotal (L.foldl (fun a b => syncBlob a.1 a.2 b) acc).2 =
        countsTotal acc.2 + L.length := by
  induction L with
  | nil => intro acc; simp
  | cons b L ih =>
      intro acc
      simp only [List.foldl_cons, List.length_cons]
      rw [ih, syncBlob_total]
      omega

lemma syncFold_mem_mono (L : List Blob) :
    ∀ (acc : DB × Counts) (x : String), x ∈ acc.1.sync_log →
      x ∈ (L.foldl (fun a b => syncBlob a.1 a.2 b) acc).1.sync_log := by
  induction L with
  | nil => intro acc x h; exact h
  | cons b L ih =>
      intro acc x h
      exact ih _ x (syncBlob_sync_log_mem _ _ _ _ h)

lemma syncFold_ok_mem (L : List Blob) :
    ∀ (acc : DB × Counts) (b : Blob), b ∈ L → blobOK b = true →
      b.name ∈ (L.foldl (fun a b => syncBlob a.1 a.2 b) acc).1.sync_log := by
  induction L with
  | nil => intro acc b h; cases h
  | cons a L ih =>
      intro acc b hmem hok
      rcases List.mem_cons.mp hmem with rfl | hmem'
      · exact syncFold_mem_mono L _ _ (syncBlob_ok_mem _ _ _ hok)
      · exact ih _ b hmem' hok

lemma syncFold_nodup (L : List Blob) :
    ∀ acc : DB × Counts, acc.1.sync_log.Nodup →
      (L.foldl (fun a b => syncBlob a.1 a.2 b) acc).1.sync_log.Nodup := by
  induction L with
  | nil => intro acc h; exact h
  | cons b L ih => intro acc h; exact ih _ (syncBlob_sync_log_nodup _ _ _ h)

lemma syncFold_fix (L : List Blob) :
    ∀ acc : DB × Counts,
      (∀ b ∈ L, b.name ∈ acc.1.sync_log ∨ blobOK b = false) →
      (L.foldl (fun a b => syncBlob a.1 a.2 b) acc).1 = acc.1 ∧
      (L.foldl (fun a b => syncBlob a.1 a.2 b) acc).2.new = acc.2.new := by
  induction L with
  | nil => intro acc _; exact ⟨rfl, rfl⟩
  | cons b L ih =>
      intro acc h
      have hb := h b (List.mem_cons_self b L)
      have hstep : (syncBlob acc.1 acc.2 b).1 = acc.1 ∧
          (syncBlob acc.1 acc.2 b).2.new = acc.2.new := by
        rcases hb with hmem | hbad
        · rw [syncBlob_of_synced acc.1 acc.2 b ((is_blob_synced_iff _ _).mpr hmem)]
          exact ⟨rfl, rfl⟩
        · by_cases hs : is_blob_synced acc.1 b.name
          · rw [syncBlob_of_synced acc.1 acc.2 b hs]
            exact ⟨rfl, rfl⟩
          · rw [syncBlob_of_bad acc.1 acc.2 b (by rwa [Bool.not_eq_true] at hs) hbad]
            exact ⟨rfl, rfl⟩
      have hrest := ih (syncBlob acc.1 acc.2 b) (by
        intro x hx
        rcases h x (List.mem_cons_of_mem b hx) with hmem | hbad
        · exact Or.inl (by rw [hstep.1]; exact hmem)
        · exact Or.inr hbad)
      simp only [List.foldl_cons]
      exact ⟨hrest.1.trans hstep.1, hrest.2.trans hstep.2⟩

/-- C10: in every `sync_readings` run, each listed `.json` object increments
exactly one of the three counters, so at the end
`new_count + skip_count + error_count` equals the number of listed `.json`
objects. -/
theorem sync_counts_partition (db : DB) (listing : List Blob) :
    (sync_readings db listing).2.new + (sync_readings db listing).2.skip +
      (sync_readings db listing).2.error =
    (listing.filter fun b => endswith b.name ".json").length := by
  have h := syncFold_total (listing.filter fun b => endswith b.name ".json")
    (db, ⟨0, 0, 0⟩)
  simpa [sync_readings, countsTotal] using h

/-- C9: a per-record failure in the sync (unparsable content, or a missing
or empty place id) leaves the whole database — the sync ledger included —
unchanged, and only happens for objects not yet in the ledger, so the object
will be attempted again by every later run; conversely the ledger only ever
gains the processed object's path, and only when its content parsed with a
usable place id, i.e. when the reading-insert step completed. -/
theorem sync_error_not_ledgered (db : DB) (c : Counts) (b : Blob) :
    ((syncBlob db c b).2.error ≠ c.error →
      (syncBlob db c b).1 = db ∧ b.name ∉ db.sync_log) ∧
    (∀ p, p ∈ (syncBlob db c b).1.sync_log →
      p ∈ db.sync_log ∨ (p = b.name ∧ blobOK b = true)) := by
  by_cases hs : is_blob_synced db b.name
  · rw [syncBlob_of_synced db c b hs]
    exact ⟨fun h => absurd rfl h, fun p hp => Or.inl hp⟩
  · have hs' : is_blob_synced db b.name = false := by rwa [Bool.not_eq_true] at hs
    by_cases hok : blobOK b
    · constructor
      · intro herr
        exact absurd (syncBlob_ok_error db c b hok) herr
      · intro p hp
        rcases syncBlob_sync_log_cases db c b p hp with h | h
        · exact Or.inl h
        · exact Or.inr ⟨h, hok⟩
    · have hok' : blobOK b = false := by rwa [Bool.not_eq_true] at hok
      rw [syncBlob_of_bad db c b hs' hok']
      refine ⟨fun _ => ⟨rfl, fun hm => ?_⟩, fun p hp => Or.inl hp⟩
      rw [(is_blob_synced_iff db b.name).mpr hm] at hs'
      exact absurd hs' (by simp)

/-- Concrete instantiation of `sync_error_not_ledgered`: an unparsable
object errors, the database is untouched and its path is not in the
ledger. -/
theorem sync_error_not_ledgered_witness :
    (syncBlob emptyDB ⟨0, 0, 0⟩ ⟨"readings/x.json", none⟩).1 = emptyDB ∧
    "readings/x.json" ∉ emptyDB.sync_log :=
  (sync_error_not_ledgered emptyDB ⟨0, 0, 0⟩ ⟨"readings/x.json", none⟩).1
    (by decide)

/-- C2: after a run of `sync_readings` whose ledger holds an object's path
(starting from a duplicate-free ledger), running the sync again over the
same archive changes nothing: the database — readings and ledger — is
exactly the first run's, the second run inserts zero new rows, the second
encounter of that object is counted as a skip (not an error) with the
database untouched, and the ledger holds the path exactly once. -/
theorem sync_idempotent (db0 : DB) (L : List Blob) (b : Blob)
    (hnd : db0.sync_log.Nodup)
    (hproc : b.name ∈ ((sync_readings db0 L).1).sync_log) :
    ((sync_readings (sync_readings db0 L).1 L).1 = (sync_readings db0 L).1) ∧
    ((sync_readings (sync_readings db0 L).1 L).2).new = 0 ∧
    (∀ c, syncBlob (sync_readings db0 L).1 c b =
      ((sync_readings db0 L).1, { c with skip := c.skip + 1 })) ∧
    ((sync_readings db0 L).1).sync_log.count b.name = 1 := by
  have hfix : ∀ b' ∈ (L.filter fun x => endswith x.name ".json"),
      b'.name ∈ ((sync_readings db0 L).1).sync_log ∨ blobOK b' = false := by
    intro b' hb'
    by_cases hok : blobOK b'
    · exact Or.inl (syncFold_ok_mem _ _ b' hb' hok)
    · exact Or.inr (by rwa [Bool.not_eq_true] at hok)
  have hfold := syncFold_fix (L.filter fun x => endswith x.name ".json")
    ((sync_readings db0 L).1, ⟨0, 0, 0⟩) hfix
  have hnd1 : ((sync_readings db0 L).1).sync_log.Nodup :=
    syncFold_nodup (L.filter fun x => endswith x.name ".json") (db0, ⟨0, 0, 0⟩) hnd
  refine ⟨hfold.1, hfold.2, ?_, ?_⟩
  · intro c
    exact syncBlob_of_synced _ c b ((is_blob_synced_iff _ _).mpr hproc)
  · exact List.count_eq_one_of_mem hnd1 hproc

/-- A concrete archived reading object, used to instantiate the idempotence
theorem. -/
def idemBlob : Blob :=
  ⟨"readings/2024/01/28/14-30.json",
    some ⟨some "ChIJy8LxJaZGHRURzNVZXycuQnw", some 42,
      some "2024-01-28T14:30:00+02:00", some 6, some 14, some true⟩⟩

/-- Concrete instantiation of `sync_idempotent`: syncing a one-object
archive twice from an empty database leaves the first run's state unchanged,
adds no row, skips the second encounter, and keeps one ledger entry. -/
theorem sync_idempotent_witness :
    ((sync_readings (sync_readings emptyDB [idemBlob]).1 [idemBlob]).1 =
      (sync_readings emptyDB [idemBlob]).1) ∧
    ((sync_readings (sync_readings emptyDB [idemBlob]).1 [idemBlob]).2).new = 0 ∧
    (syncBlob (sync_readings emptyDB [idemBlob]).1 ⟨0, 0, 0⟩ idemBlob =
      ((sync_readings emptyDB [idemBlob]).1, ⟨0, 1, 0⟩)) ∧
    ((sync_readings emptyDB [idemBlob]).1).sync_log.count idemBlob.name = 1 :=
  have h := sync_idempotent emptyDB [idemBlob] idemBlob List.nodup_nil (by decide)
  ⟨h.1, h.2.1, h.2.2.1 ⟨0, 0, 0⟩, h.2.2.2⟩

/-- C5: two archived objects with different paths but identical
`(location_id, timestamp)` — same place id resolving to the same location,
same timestamp — synced into an empty database yield exactly one readings
row; the run reports one new, one skipped and zero errors, and in general a
duplicate-key insert is absorbed by `insert_reading` returning `false` with
the database unchanged (no exception reaches the caller). -/
theorem sync_dedup_content (b1 b2 : Blob) (pid ts : String)
    (d1 d2 : ReadingJson)
    (hne : b1.name ≠ b2.name)
    (hj1 : endswith b1.name ".json" = true)
    (hj2 : endswith b2.name ".json" = true)
    (hc1 : b1.content = some d1) (hc2 : b2.content = some d2)
    (hp1 : d1.place_id = some pid) (hp2 : d2.place_id = some pid)
    (hpid : pid ≠ "")
    (ht1 : d1.timestamp = some ts) (ht2 : d2.timestamp = some ts) :
    ((sync_readings emptyDB [b1, b2]).1).readings.length = 1 ∧
    (sync_readings emptyDB [b1, b2]).2 = ⟨1, 1, 0⟩ ∧
    (∀ db lid pop dow hr io sf,
      (∃ r ∈ db.readings, r.location_id = lid ∧ r.timestamp = ts) →
      insert_reading db lid pop (some ts) dow hr io sf = (db, false)) := by
  have habsorb : ∀ (db : DB) lid pop dow hr io sf,
      (∃ r ∈ db.readings, r.location_id = lid ∧ r.timestamp = ts) →
      insert_reading db lid pop (some ts) dow hr io sf = (db, false) := by
    intro db lid pop dow hr io sf hex
    obtain ⟨r, hr, hrl, hrt⟩ := hex
    unfold insert_reading
    dsimp only
    rw [if_pos]
    exact List.any_eq_true.mpr ⟨r, hr, by simp [hrl, hrt]⟩
  obtain ⟨n1, c1⟩ := b1
  obtain ⟨n2, c2⟩ := b2
  obtain ⟨pid1, pop1, ts1, dow1, hr1, io1⟩ := d1
  obtain ⟨pid2, pop2, ts2, dow2, hr2, io2⟩ := d2
  dsimp only at hne hj1 hj2 hc1 hc2 hp1 hp2 ht1 ht2
  subst hc1 hc2 hp1 hp2 ht1 ht2
  have hne' : n2 ≠ n1 := fun h => hne h.symm
  refine ⟨?_, ?_, habsorb⟩ <;>
    simp [sync_readings, syncBlob, is_blob_synced, insert_reading,
      get_or_create_location, mark_blob_synced, emptyDB, hj1, hj2, hpid, hne',
      List.filter, List.find?]

/-- First concrete archived object for the dedup-by-content scenario. -/
def dedupBlobA : Blob :=
  ⟨"readings/2024/01/28/14-00.json",
    some ⟨some "p1", some 10, some "2024-01-28T14:00:00", some 6, some 14, some true⟩⟩

/-- Second concrete archived object: different path, same place id and
timestamp. -/
def dedupBlobB : Blob :=
  ⟨"readings/2024/01/28/14-00-copy.json",
    some ⟨some "p1", some 20, some "2024-01-28T14:00:00", some 6, some 14, some true⟩⟩

/-- A database already holding the `(1, "2024-01-28T14:00:00")` reading. -/
def dedupDB : DB :=
  ⟨[], [⟨1, some 10, "2024-01-28T14:00:00", some 6, some 14, 1, none⟩], [], 2⟩

/-- Concrete instantiation of `sync_dedup_content` at the two objects above:
one row, counts (1 new, 1 skipped, 0 errors), and the duplicate insert
absorbed as a `false` return. -/
theorem sync_dedup_content_witness :
    ((sync_readings emptyDB [dedupBlobA, dedupBlobB]).1).readings.length = 1 ∧
    (sync_readings emptyDB [dedupBlobA, dedupBlobB]).2 = ⟨1, 1, 0⟩ ∧
    insert_reading dedupDB 1 none (some "2024-01-28T14:00:00") none none true none =
      (dedupDB, false) :=
  have h := sync_dedup_content dedupBlobA dedupBlobB "p1" "2024-01-28T14:00:00"
    ⟨some "p1", some 10, some "2024-01-28T14:00:00", some 6, some 14, some true⟩
    ⟨some "p1", some 20, some "2024-01-28T14:00:00", some 6, some 14, some true⟩
    (by decide) (by decide) (by decide) rfl rfl rfl rfl (by decide) rfl rfl
  ⟨h.1, h.2.1, h.2.2 dedupDB 1 none none none true none
    ⟨⟨1, some 10, "2024-01-28T14:00:00", some 6, some 14, 1, none⟩,
      by simp [dedupDB], rfl, rfl⟩⟩

end NLIMonitor
